import Mathlib

/-!
Verification development for the quality-gate orchestrator `quality_check.py`.

The script is embedded shallowly: external subprocesses are an oracle trace
(`World.exec`), indexed by the number of commands run so far, each entry being
either a completed process (return code, stdout, stderr) or a spawn failure
(the Python-level exception caught by `run_command`).  The mutable module state
(`CHECKS_PASSED`, `CHECKS_FAILED`) together with an observable event log is the
state `St`, threaded explicitly by the small monad `M`; `sys.exit` is the
`Res.exited` outcome.  Filesystem facts read by the script (`go.mod` existence
and first line, build-artifact existence) are further `World` fields.
-/

namespace QC

/-- Result of attempting one subprocess: either the process ran to completion
with a return code and captured stdout/stderr, or it could not be launched at
all (the `except Exception` branch of `run_command`) with diagnostic text. -/
inductive ExecResult where
  | normal (returncode : Int) (stdout : String) (stderr : String)
  | launchFailure (diag : String)
deriving DecidableEq, Repr

/-- Observable events of a run: check results (Pass/Fail/Warn), plain printed
lines (stdout prints and `debug` lines), each subprocess invocation (by its
command line), the PATH mutation after a tool install, and the build-artifact
deletion. -/
inductive Event where
  | passEv (msg : String)
  | failEv (msg : String)
  | warnEv (msg : String)
  | printEv (line : String)
  | cmdEv (command : String)
  | pathEv (dir : String)
  | removeEv
deriving DecidableEq, Repr

/-- The opaque environment of one run: the oracle trace of subprocess outcomes
(`exec i` is the result of the `i`-th command spawned), plus the filesystem
facts the script reads. -/
structure World where
  exec : Nat → ExecResult
  goModExists : Bool
  goModFirstLine : String
  artifactExists : Bool

/-- Mutable state of the script: number of commands run so far (the oracle
cursor), the two global counters `CHECKS_PASSED` / `CHECKS_FAILED`, and the
event log. -/
structure St where
  idx : Nat
  passed : Nat
  failed : Nat
  events : List Event
deriving DecidableEq, Repr

/-- Outcome of a computation: a value, or the process terminated via
`sys.exit code`. -/
inductive Res (α : Type) where
  | ok (a : α)
  | exited (code : Nat)
deriving DecidableEq, Repr

/-- Computations of the script: read the world, transform the state, and
either produce a value or exit the process. -/
def M (α : Type) : Type := World → St → Res α × St

def M.pure {α : Type} (a : α) : M α := fun _ s => (Res.ok a, s)

def M.bind {α β : Type} (x : M α) (f : α → M β) : M β := fun w s =>
  match x w s with
  | (Res.ok a, s2) => f a w s2
  | (Res.exited c, s2) => (Res.exited c, s2)

/-- `sys.exit code`. -/
def M.exit {α : Type} (code : Nat) : M α := fun _ s => (Res.exited code, s)

def M.getWorld : M World := fun w s => (Res.ok w, s)

/-- Read the two global counters (as `generate_summary` and `main` do). -/
def M.getTally : M (Nat × Nat) := fun _ s => (Res.ok (s.passed, s.failed), s)

def M.emit (e : Event) : M Unit := fun _ s =>
  (Res.ok (), { s with events := s.events ++ [e] })

/-! ## Python string helpers (char-list based, mirroring `str` semantics) -/

/-- Whitespace characters removed by Python `str.strip()` (the ASCII ones,
which are the only ones arising here). -/
def isPySpace (c : Char) : Bool :=
  c == ' ' || c == '\t' || c == '\n' || c == '\r' || c == '\x0b' || c == '\x0c'

/-- Python `str.strip()`. -/
def pyStrip (s : String) : String :=
  String.mk (((s.data.dropWhile isPySpace).reverse.dropWhile isPySpace).reverse)

/-- Python `str.split(sep)` for a one-character separator: keeps empty parts,
always returns at least one part. -/
def splitChar (c : Char) : List Char → List (List Char)
  | [] => [[]]
  | x :: xs =>
    match splitChar c xs with
    | r :: rs => if x = c then [] :: r :: rs else (x :: r) :: rs
    | [] => [[]]

/-- Matcher for the regex `go(\d+\.\d+)` anchored at the head of the list:
literal `go`, then a maximal nonempty digit run, a dot, and a second maximal
nonempty digit run; returns the captured group. -/
def goVerAt : List Char → Option (List Char)
  | 'g' :: 'o' :: rest =>
    let d1 := rest.takeWhile Char.isDigit
    if d1.isEmpty then none else
    match rest.dropWhile Char.isDigit with
    | '.' :: r2 =>
      let d2 := r2.takeWhile Char.isDigit
      if d2.isEmpty then none else some (d1 ++ '.' :: d2)
    | _ => none
  | _ => none

/-- `re.search(r'go(\d+\.\d+)', s)`: earliest-position match wins. -/
def goVerSearch : List Char → Option (List Char)
  | [] => none
  | c :: rest =>
    match goVerAt (c :: rest) with
    | some v => some v
    | none => goVerSearch rest

/-- The version-extraction step of `validate_environment`: search the `go
version` output for `go(\d+\.\d+)` and return the captured group. -/
def goVersionSearch (s : String) : Option String := (goVerSearch s.data).map String.mk

/-- Python `str < str`: lexicographic comparison of code points (shorter
string is smaller when it is a proper prefix).  This is the comparison the
script applies to version strings. -/
def pyStrLt : List Char → List Char → Bool
  | [], [] => false
  | [], _ :: _ => true
  | _ :: _, [] => false
  | a :: as, b :: bs => if a < b then true else if b < a then false else pyStrLt as bs

/-- A single-quote character, used to build command and message strings. -/
def squote : String := String.mk [Char.ofNat 39]

/-- Wrap a string in single quotes, as the Python f-strings `'{x}'` do. -/
def q (s : String) : String := squote ++ s ++ squote

/-! ## Constants of the script -/

def PROJECT_NAME : String := "otsu-obliterator"

def GO_VERSION_REQUIRED : String := "1.24"

/-! ## The script itself -/

/-- `success(message)`: print a checkmark line and bump `CHECKS_PASSED`. -/
def success (message : String) : M Unit := fun _ s =>
  (Res.ok (), { s with passed := s.passed + 1, events := s.events ++ [Event.passEv message] })

/-- `fail(message)`: print a cross line to stderr and bump `CHECKS_FAILED`. -/
def fail (message : String) : M Unit := fun _ s =>
  (Res.ok (), { s with failed := s.failed + 1, events := s.events ++ [Event.failEv message] })

/-- `warn(message)`: print a warning line; the counters are untouched. -/
def warn (message : String) : M Unit := fun _ s =>
  (Res.ok (), { s with events := s.events ++ [Event.warnEv message] })

/-- A plain `print(...)` line. -/
def printLine (line : String) : M Unit := M.emit (Event.printEv line)

/-- `debug(message)`: prints `[DEBUG] {message}`. -/
def debug (message : String) : M Unit := printLine ("[DEBUG] " ++ message)

/-- The pure part of `run_command`: how one `ExecResult` is classified.
Return code 0 yields `(True, stdout.strip())`, nonzero yields
`(False, stderr.strip())`, and a spawn exception yields `(False, str(e))`. -/
def runResult : ExecResult → Bool × String
  | ExecResult.normal rc out err => if rc = 0 then (true, pyStrip out) else (false, pyStrip err)
  | ExecResult.launchFailure d => (false, d)

/-- `run_command(command)`: spawn the next subprocess of the oracle trace,
log the invocation, and classify its outcome.  It never raises and never
exits. -/
def run_command (command : String) : M (Bool × String) := fun w s =>
  (Res.ok (runResult (w.exec s.idx)),
   { s with idx := s.idx + 1, events := s.events ++ [Event.cmdEv command] })

/-- `get_gopath()`: query `go env GOPATH`; on failure record a Fail and
`sys.exit(1)`. -/
def get_gopath : M String :=
  M.bind (run_command "go env GOPATH") fun r =>
  if r.1 then M.pure r.2
  else M.bind (fail "Failed to get GOPATH") fun _ => M.exit 1

/-- `install_tool(tool_name, install_command)`. -/
def install_tool (tool_name : String) (install_command : String) : M Unit :=
  M.bind (debug ("Checking if " ++ tool_name ++ " is installed...")) fun _ =>
  M.bind (run_command ("command -v " ++ tool_name)) fun probe =>
  if !probe.1 then
    M.bind (warn (tool_name ++ " not available, attempting to install...")) fun _ =>
    M.bind (run_command install_command) fun inst =>
    if inst.1 then
      M.bind (success (tool_name ++ " installed successfully")) fun _ =>
      M.bind get_gopath fun gopath =>
      M.bind (M.emit (Event.pathEv (gopath ++ "/bin"))) fun _ =>
      debug ("Added " ++ gopath ++ "/bin" ++ " to PATH")
    else
      fail ("Failed to install " ++ tool_name ++ ": " ++ inst.2)
  else
    success (tool_name ++ " is already installed")

/-- The `module_path` computed from the first line of `go.mod`:
`first_line.split(" ")[1] if len(first_line.split(" ")) > 1 else ""`. -/
def modulePathOf (first_line : String) : String :=
  let parts := splitChar ' ' first_line.data
  if parts.length > 1 then String.mk (parts.getD 1 []) else ""

/-- `module_path.split("/")[-1]`. -/
def moduleNameOf (module_path : String) : String :=
  String.mk ((splitChar '/' module_path.data).getLastD [])

/-- `validate_environment()`. -/
def validate_environment : M Bool :=
  M.bind (debug "Entering validate_environment") fun _ =>
  M.bind (printLine "Validating environment...") fun _ =>
  M.bind (run_command "command -v go") fun goProbe =>
  if !goProbe.1 then
    M.bind (fail "Go not found in PATH") fun _ =>
    M.bind (debug "Go not found, exiting validate_environment") fun _ =>
    M.pure false
  else
  M.bind (debug "Go command found") fun _ =>
  M.bind (run_command "go version") fun ver =>
  if !ver.1 then
    M.bind (fail "Unable to determine Go version") fun _ =>
    M.bind (debug "Failed to get Go version, exiting validate_environment") fun _ =>
    M.pure false
  else
  match goVersionSearch ver.2 with
  | some go_version =>
    M.bind (debug ("Go version extracted: " ++ go_version)) fun _ =>
    if pyStrLt go_version.data GO_VERSION_REQUIRED.data then
      M.bind (fail ("Go version " ++ go_version ++ " below requirement (>= " ++ GO_VERSION_REQUIRED ++ ")")) fun _ =>
      M.bind (debug "Go version too low, exiting validate_environment") fun _ =>
      M.pure false
    else
    M.bind (success ("Go version " ++ go_version ++ " meets requirement (>= " ++ GO_VERSION_REQUIRED ++ ")")) fun _ =>
    M.bind (debug "Checking for go.mod") fun _ =>
    M.bind M.getWorld fun w =>
    M.bind (if w.goModExists then
      M.bind (success "go.mod exists") fun _ =>
      let first_line := pyStrip w.goModFirstLine
      let module_path := modulePathOf first_line
      let module_name := moduleNameOf module_path
      M.bind (debug ("Module path from go.mod: " ++ module_path)) fun _ =>
      if module_name = PROJECT_NAME then
        success ("Module name matches project (got " ++ q module_name ++ ")")
      else
        fail ("Module name mismatch: expected " ++ q PROJECT_NAME ++ ", got " ++ q module_name ++ " (from " ++ q module_path ++ ")")
    else
      M.bind (fail "go.mod not found") fun _ =>
      debug "go.mod missing, continuing") fun _ =>
    M.bind (debug "Exiting validate_environment") fun _ =>
    M.pure true
  | none =>
    M.bind (fail "Unable to parse Go version") fun _ =>
    M.bind (debug "Go version parsing failed, exiting validate_environment") fun _ =>
    M.pure false

/-- `check_tools()`. -/
def check_tools : M Unit :=
  M.bind (debug "Entering check_tools") fun _ =>
  M.bind (printLine "Checking available tools...") fun _ =>
  M.bind (install_tool "staticcheck" "go install honnef.co/go/tools/cmd/staticcheck@latest") fun _ =>
  M.bind (install_tool "govulncheck" "go install golang.org/x/vuln/cmd/govulncheck@latest") fun _ =>
  debug "Exiting check_tools"

/-- The formatter command line of `check_formatting`; it ends in `|| true`,
so the shell reports success whether or not `gofmt` exists. -/
def gofmt_command : String := "gofmt -l . | grep -v vendor/ || true"

/-- `check_formatting()`: Pass iff the command's (trimmed) stdout is empty. -/
def check_formatting : M Unit :=
  M.bind (debug "Entering check_formatting") fun _ =>
  M.bind (printLine "Checking code formatting...") fun _ =>
  M.bind (run_command gofmt_command) fun r =>
  M.bind (if r.2 = "" then
    success "All Go files formatted correctly"
  else
    fail ("Unformatted files found: " ++ r.2)) fun _ =>
  debug "Exiting check_formatting"

/-- The fixed (command, description) list of `run_core_checks`. -/
def core_checks : List (String × String) :=
  [("go vet ./...", "go vet passed"),
   ("go test -race -short ./...", "Tests passed with race detection"),
   ("go mod tidy -diff", "Dependencies properly managed"),
   ("go mod verify", "Module checksums verified")]

/-- `desc.split(' ')[0]`. -/
def firstWord (s : String) : String := String.mk ((splitChar ' ' s.data).headD [])

/-- The `for cmd, desc in [...]` loop body of `run_core_checks`. -/
def core_loop : List (String × String) → M Unit
  | [] => M.pure ()
  | p :: rest =>
    M.bind (run_command p.1) fun r =>
    M.bind (if r.1 then success p.2 else fail (firstWord p.2 ++ " failed")) fun _ =>
    core_loop rest

/-- `run_core_checks()`. -/
def run_core_checks : M Unit :=
  M.bind (debug "Entering run_core_checks") fun _ =>
  M.bind (printLine "Running core quality checks...") fun _ =>
  M.bind (core_loop core_checks) fun _ =>
  debug "Exiting run_core_checks"

/-- The staticcheck invocation of `run_external_tools`. -/
def staticcheck_invocation : String := "staticcheck -checks=" ++ q "all,-SA1019" ++ " ./..."

/-- `run_external_tools()`. -/
def run_external_tools : M Unit :=
  M.bind (debug "Entering run_external_tools") fun _ =>
  M.bind (printLine "Running external tools (conditional)...") fun _ =>
  M.bind (run_command "command -v staticcheck") fun p1 =>
  M.bind (if p1.1 then
    M.bind (run_command staticcheck_invocation) fun r =>
    if r.1 then success "staticcheck passed" else fail "staticcheck found issues"
  else
    warn "staticcheck not available") fun _ =>
  M.bind (run_command "command -v govulncheck") fun p2 =>
  M.bind (if p2.1 then
    M.bind (run_command "govulncheck ./...") fun r =>
    if r.1 then success "No security vulnerabilities found" else fail "Security vulnerabilities detected"
  else
    warn "govulncheck not available") fun _ =>
  debug "Exiting run_external_tools"

/-- `check_build()`. -/
def check_build : M Unit :=
  M.bind (debug "Entering check_build") fun _ =>
  M.bind (printLine "Verifying build...") fun _ =>
  M.bind (run_command "go build -v .") fun r =>
  M.bind (if r.1 then
    M.bind (success "Build successful") fun _ =>
    M.bind M.getWorld fun w =>
    if w.artifactExists then M.emit Event.removeEv else M.pure ()
  else
    fail "Build failed") fun _ =>
  debug "Exiting check_build"

/-- `generate_summary()`. -/
def generate_summary : M Unit :=
  M.bind (debug "Entering generate_summary") fun _ =>
  M.bind (printLine "\n==================================") fun _ =>
  M.bind (printLine "Quality Check Summary") fun _ =>
  M.bind (printLine "==================================") fun _ =>
  M.bind M.getTally fun t =>
  M.bind (printLine ("Passed: " ++ toString t.1)) fun _ =>
  M.bind (printLine ("Failed: " ++ toString t.2 ++ "\n")) fun _ =>
  M.bind (if t.2 = 0 then
    printLine "All quality checks passed"
  else
    printLine (toString t.2 ++ " quality checks failed")) fun _ =>
  debug "Exiting generate_summary"

/-- The final exit of `main`: `sys.exit(0)` when `CHECKS_FAILED == 0`, else
`sys.exit(1)`. -/
def exitDecision : M Unit := fun _ s =>
  if s.failed = 0 then (Res.exited 0, s) else (Res.exited 1, s)

/-- The step sequence of the `check` branch of `main`. -/
def check_pipeline : M Unit :=
  M.bind validate_environment fun _ =>
  M.bind check_tools fun _ =>
  M.bind check_formatting fun _ =>
  M.bind run_core_checks fun _ =>
  M.bind run_external_tools fun _ =>
  check_build

/-- The step sequence of the `fast` branch of `main`. -/
def fast_pipeline : M Unit :=
  M.bind validate_environment fun _ =>
  M.bind check_formatting fun _ =>
  M.bind run_core_checks fun _ =>
  check_build

/-- The `else` branch of `main`: print usage and `sys.exit(1)`. -/
def usage_exit : M Unit :=
  M.bind (printLine "Usage: quality_check.py [check|fast|format]") fun _ =>
  M.exit 1

/-- `main()`, taking `sys.argv[1:]` as `args` (so the mode is `args[0]` when
present, defaulting to `"check"`). -/
def main (args : List String) : M Unit :=
  M.bind (debug "Entering main") fun _ =>
  let command := args.headD "check"
  M.bind (
    if command = "check" ∨ command = "" then check_pipeline
    else if command = "fast" then fast_pipeline
    else if command = "format" then check_formatting
    else usage_exit) fun _ =>
  M.bind generate_summary fun _ =>
  exitDecision

/-- Initial state of the process: counters at zero, no events, no command
spawned yet. -/
def initSt : St := { idx := 0, passed := 0, failed := 0, events := [] }

/-- A whole run of the program: the final exit code and final state.  `main`
always terminates through `sys.exit`; if the script body fell off the end the
interpreter itself would exit 0, which the `Res.ok` arm reflects. -/
def runProgram (args : List String) (w : World) : Nat × St :=
  match main args w initSt with
  | (Res.ok _, s) => (0, s)
  | (Res.exited c, s) => (c, s)

/-! ## Event counting -/

/-- Number of Pass results in an event list. -/
def countPass : List Event → Nat
  | [] => 0
  | Event.passEv _ :: rest => countPass rest + 1
  | _ :: rest => countPass rest

/-- Number of Fail results in an event list. -/
def countFail : List Event → Nat
  | [] => 0
  | Event.failEv _ :: rest => countFail rest + 1
  | _ :: rest => countFail rest

/-- The command lines of all subprocess invocations in an event list, in
order. -/
def cmdsOf : List Event → List String
  | [] => []
  | Event.cmdEv c :: rest => c :: cmdsOf rest
  | _ :: rest => cmdsOf rest

/-! ## Concrete environments used to exercise the program -/

/-- An environment where every command succeeds with empty output and no
file exists. -/
def trivialWorld : World :=
  { exec := fun _ => ExecResult.normal 0 "" ""
    goModExists := false
    goModFirstLine := ""
    artifactExists := false }

/-- An environment where `go` itself is missing, `staticcheck` is absent, its
installation succeeds, and the `go env GOPATH` query fails. -/
def goAbsentWorld : World :=
  { exec := fun i =>
      if i = 0 then ExecResult.normal 1 "" ""
      else if i = 1 then ExecResult.normal 1 "" ""
      else if i = 2 then ExecResult.normal 0 "" ""
      else if i = 3 then ExecResult.normal 1 "" "go: cannot determine GOPATH"
      else ExecResult.normal 0 "" ""
    goModExists := false
    goModFirstLine := ""
    artifactExists := false }

/-- An environment whose Go toolchain reports version `go1.1`, with a
`go.mod` present. -/
def goVer11World : World :=
  { exec := fun i =>
      if i = 0 then ExecResult.normal 0 "/usr/bin/go" ""
      else if i = 1 then ExecResult.normal 0 "go version go1.1 linux/amd64" ""
      else ExecResult.normal 0 "" ""
    goModExists := true
    goModFirstLine := "module github.com/x/otsu-obliterator"
    artifactExists := false }

/-- An environment whose Go toolchain reports version `go1.9`, with a
matching `go.mod` present. -/
def goVer19World : World :=
  { exec := fun i =>
      if i = 0 then ExecResult.normal 0 "/usr/bin/go" ""
      else if i = 1 then ExecResult.normal 0 "go version go1.9 linux/amd64" ""
      else ExecResult.normal 0 "" ""
    goModExists := true
    goModFirstLine := "module github.com/x/otsu-obliterator"
    artifactExists := false }

/-! ## Numeric dotted-version comparison (the spec's contrast notion) -/

/-- Value of a digit run. -/
def digitsToNat (l : List Char) : Nat := l.foldl (fun n c => n * 10 + (c.toNat - 48)) 0

/-- Modelled from the spec: the dotted components of a version string read as
numbers, the basis of "numeric dotted-version comparison" (§9), which the
script does NOT implement. -/
def versionNums (s : String) : List Nat := (splitChar '.' s.data).map digitsToNat

/-- Lexicographic order on numeric component lists. -/
def numListLt : List Nat → List Nat → Bool
  | [], [] => false
  | [], _ :: _ => true
  | _ :: _, [] => false
  | a :: as, b :: bs => if a < b then true else if b < a then false else numListLt as bs

/-- Modelled from the spec: proper numeric dotted-version comparison, the
comparison §9 says an implementer might substitute for the string one. -/
def specNumericLt (a b : String) : Bool := numListLt (versionNums a) (versionNums b)

/-! ## Behavioural predicates -/

/-- `c` returns normally from every world and state, appends some events `l`
to the log, and bumps the counters by exactly the Pass/Fail results in `l`. -/
def SpecOk {α : Type} (c : M α) : Prop := ∀ w s, ∃ a s2 l,
  c w s = (Res.ok a, s2) ∧ s2.events = s.events ++ l ∧
  s2.passed = s.passed + countPass l ∧ s2.failed = s.failed + countFail l

/-- `c` appends some events `l` and bumps the counters by the Pass/Fail
results in `l`; it may terminate the process, but only with exit code 1 and
only having recorded a Fail. -/
def Spec {α : Type} (c : M α) : Prop := ∀ w s, ∃ r s2 l,
  c w s = (r, s2) ∧ s2.events = s.events ++ l ∧
  s2.passed = s.passed + countPass l ∧ s2.failed = s.failed + countFail l ∧
  ∀ cd, r = Res.exited cd → cd = 1 ∧ 1 ≤ countFail l

/-- The tally invariant: the counters equal the number of Pass/Fail results
emitted so far. -/
def Tallies (s : St) : Prop := s.passed = countPass s.events ∧ s.failed = countFail s.events

/-! ## Counting lemmas -/

theorem countPass_append (l1 l2 : List Event) :
    countPass (l1 ++ l2) = countPass l1 + countPass l2 := by
  induction l1 with
  | nil => simp [countPass]
  | cons e rest ih => cases e <;> simp [countPass, ih] <;> omega

theorem countFail_append (l1 l2 : List Event) :
    countFail (l1 ++ l2) = countFail l1 + countFail l2 := by
  induction l1 with
  | nil => simp [countFail]
  | cons e rest ih => cases e <;> simp [countFail, ih] <;> omega

/-! ## Closure of the behavioural predicates -/

theorem specOk_pure {α : Type} (a : α) : SpecOk (M.pure a) := by
  intro w s
  exact ⟨a, s, [], rfl, by simp, by simp [countPass], by simp [countFail]⟩

theorem specOk_bind {α β : Type} {x : M α} {f : α → M β}
    (hx : SpecOk x) (hf : ∀ a, SpecOk (f a)) : SpecOk (M.bind x f) := by
  intro w s
  obtain ⟨a, s2, l, h1, he, hp, hq⟩ := hx w s
  obtain ⟨b, s3, l2, h2, he2, hp2, hq2⟩ := hf a w s2
  refine ⟨b, s3, l ++ l2, ?_, ?_, ?_, ?_⟩
  · simp [M.bind, h1, h2]
  · rw [he2, he, List.append_assoc]
  · rw [hp2, hp, countPass_append]; omega
  · rw [hq2, hq, countFail_append]; omega

theorem specOk_ite {α : Type} {c : Prop} [Decidable c] {x y : M α}
    (hx : SpecOk x) (hy : SpecOk y) : SpecOk (if c then x else y) := by
  split <;> assumption

theorem specOk_success (m : String) : SpecOk (success m) := by
  intro w s
  exact ⟨(), _, [Event.passEv m], rfl, rfl, by simp [countPass], by simp [countFail]⟩

theorem specOk_fail (m : String) : SpecOk (fail m) := by
  intro w s
  exact ⟨(), _, [Event.failEv m], rfl, rfl, by simp [countPass], by simp [countFail]⟩

theorem specOk_warn (m : String) : SpecOk (warn m) := by
  intro w s
  exact ⟨(), _, [Event.warnEv m], rfl, rfl, by simp [countPass], by simp [countFail]⟩

theorem specOk_emit (e : Event) (h1 : countPass [e] = 0) (h2 : countFail [e] = 0) :
    SpecOk (M.emit e) := by
  intro w s
  exact ⟨(), _, [e], rfl, rfl, by simp [h1], by simp [h2]⟩

theorem specOk_printLine (m : String) : SpecOk (printLine m) :=
  specOk_emit _ (by simp [countPass]) (by simp [countFail])

theorem specOk_debug (m : String) : SpecOk (debug m) :=
  specOk_emit _ (by simp [countPass]) (by simp [countFail])

theorem specOk_run_command (c : String) : SpecOk (run_command c) := by
  intro w s
  exact ⟨_, _, [Event.cmdEv c], rfl, rfl, by simp [countPass], by simp [countFail]⟩

theorem specOk_getWorld : SpecOk M.getWorld := by
  intro w s
  exact ⟨w, s, [], rfl, by simp, by simp [countPass], by simp [countFail]⟩

theorem specOk_getTally : SpecOk M.getTally := by
  intro w s
  exact ⟨_, s, [], rfl, by simp, by simp [countPass], by simp [countFail]⟩

theorem spec_of_specOk {α : Type} {c : M α} (h : SpecOk c) : Spec c := by
  intro w s
  obtain ⟨a, s2, l, h1, he, hp, hq⟩ := h w s
  exact ⟨Res.ok a, s2, l, h1, he, hp, hq, fun cd hcd => by simp at hcd⟩

theorem spec_bind {α β : Type} {x : M α} {f : α → M β}
    (hx : Spec x) (hf : ∀ a, Spec (f a)) : Spec (M.bind x f) := by
  intro w s
  obtain ⟨r, s2, l, h1, he, hp, hq, hex⟩ := hx w s
  cases r with
  | ok a =>
    obtain ⟨r2, s3, l2, h2, he2, hp2, hq2, hex2⟩ := hf a w s2
    refine ⟨r2, s3, l ++ l2, ?_, ?_, ?_, ?_, ?_⟩
    · simp [M.bind, h1, h2]
    · rw [he2, he, List.append_assoc]
    · rw [hp2, hp, countPass_append]; omega
    · rw [hq2, hq, countFail_append]; omega
    · intro cd hcd
      obtain ⟨hc1, hc2⟩ := hex2 cd hcd
      exact ⟨hc1, by rw [countFail_append]; omega⟩
  | exited cd =>
    refine ⟨Res.exited cd, s2, l, by simp [M.bind, h1], he, hp, hq, ?_⟩
    intro cd2 hcd
    cases hcd
    exact hex cd rfl

theorem spec_ite {α : Type} {c : Prop} [Decidable c] {x y : M α}
    (hx : Spec x) (hy : Spec y) : Spec (if c then x else y) := by
  split <;> assumption

theorem spec_get_gopath : Spec get_gopath := by
  intro w s
  by_cases h : (runResult (w.exec s.idx)).1 = true
  · have heq : get_gopath w s =
        (Res.ok (runResult (w.exec s.idx)).2,
         { s with idx := s.idx + 1, events := s.events ++ [Event.cmdEv "go env GOPATH"] }) := by
      simp [get_gopath, M.bind, run_command, M.pure, h]
    exact ⟨_, _, [Event.cmdEv "go env GOPATH"], heq, rfl,
      by simp [countPass], by simp [countFail], fun cd hcd => by simp at hcd⟩
  · have heq : get_gopath w s =
        (Res.exited 1,
         { s with idx := s.idx + 1, failed := s.failed + 1,
                  events := (s.events ++ [Event.cmdEv "go env GOPATH"]) ++ [Event.failEv "Failed to get GOPATH"] }) := by
      simp [get_gopath, M.bind, run_command, fail, M.exit, h]
    refine ⟨_, _, [Event.cmdEv "go env GOPATH", Event.failEv "Failed to get GOPATH"], heq,
      by simp, by simp [countPass], by simp [countFail], ?_⟩
    intro cd hcd
    cases hcd
    exact ⟨rfl, by simp [countFail]⟩

/-! ## Per-component behaviour -/

theorem specOk_validate : SpecOk validate_environment := by
  unfold validate_environment
  refine specOk_bind (specOk_debug _) fun _ => ?_
  refine specOk_bind (specOk_printLine _) fun _ => ?_
  refine specOk_bind (specOk_run_command _) fun goProbe => ?_
  refine specOk_ite ?_ ?_
  · exact specOk_bind (specOk_fail _) fun _ =>
      specOk_bind (specOk_debug _) fun _ => specOk_pure _
  · refine specOk_bind (specOk_debug _) fun _ => ?_
    refine specOk_bind (specOk_run_command _) fun ver => ?_
    refine specOk_ite ?_ ?_
    · exact specOk_bind (specOk_fail _) fun _ =>
        specOk_bind (specOk_debug _) fun _ => specOk_pure _
    · cases goVersionSearch ver.2 with
      | some gv =>
        refine specOk_bind (specOk_debug _) fun _ => ?_
        refine specOk_ite ?_ ?_
        · exact specOk_bind (specOk_fail _) fun _ =>
            specOk_bind (specOk_debug _) fun _ => specOk_pure _
        · refine specOk_bind (specOk_success _) fun _ => ?_
          refine specOk_bind (specOk_debug _) fun _ => ?_
          refine specOk_bind specOk_getWorld fun w => ?_
          refine specOk_bind (specOk_ite ?_ ?_) fun _ =>
            specOk_bind (specOk_debug _) fun _ => specOk_pure _
          · exact specOk_bind (specOk_success _) fun _ =>
              specOk_bind (specOk_debug _) fun _ =>
              specOk_ite (specOk_success _) (specOk_fail _)
          · exact specOk_bind (specOk_fail _) fun _ => specOk_debug _
      | none =>
        exact specOk_bind (specOk_fail _) fun _ =>
          specOk_bind (specOk_debug _) fun _ => specOk_pure _

theorem spec_install_tool (tool_name : String) (install_command : String) :
    Spec (install_tool tool_name install_command) := by
  unfold install_tool
  refine spec_bind (spec_of_specOk (specOk_debug _)) fun _ => ?_
  refine spec_bind (spec_of_specOk (specOk_run_command _)) fun probe => ?_
  refine spec_ite ?_ (spec_of_specOk (specOk_success _))
  refine spec_bind (spec_of_specOk (specOk_warn _)) fun _ => ?_
  refine spec_bind (spec_of_specOk (specOk_run_command _)) fun inst => ?_
  refine spec_ite ?_ (spec_of_specOk (specOk_fail _))
  refine spec_bind (spec_of_specOk (specOk_success _)) fun _ => ?_
  refine spec_bind spec_get_gopath fun gopath => ?_
  exact spec_bind
    (spec_of_specOk (specOk_emit _ (by simp [countPass]) (by simp [countFail])))
    fun _ => spec_of_specOk (specOk_debug _)

theorem spec_check_tools : Spec check_tools := by
  unfold check_tools
  refine spec_bind (spec_of_specOk (specOk_debug _)) fun _ => ?_
  refine spec_bind (spec_of_specOk (specOk_printLine _)) fun _ => ?_
  refine spec_bind (spec_install_tool _ _) fun _ => ?_
  exact spec_bind (spec_install_tool _ _) fun _ => spec_of_specOk (specOk_debug _)

theorem specOk_check_formatting : SpecOk check_formatting := by
  unfold check_formatting
  refine specOk_bind (specOk_debug _) fun _ => ?_
  refine specOk_bind (specOk_printLine _) fun _ => ?_
  refine specOk_bind (specOk_run_command _) fun r => ?_
  exact specOk_bind (specOk_ite (specOk_success _) (specOk_fail _)) fun _ => specOk_debug _

theorem specOk_core_loop (l : List (String × String)) : SpecOk (core_loop l) := by
  induction l with
  | nil => exact specOk_pure ()
  | cons p rest ih =>
    exact specOk_bind (specOk_run_command _) fun r =>
      specOk_bind (specOk_ite (specOk_success _) (specOk_fail _)) fun _ => ih

theorem specOk_run_core_checks : SpecOk run_core_checks := by
  unfold run_core_checks
  refine specOk_bind (specOk_debug _) fun _ => ?_
  refine specOk_bind (specOk_printLine _) fun _ => ?_
  exact specOk_bind (specOk_core_loop _) fun _ => specOk_debug _

theorem specOk_run_external_tools : SpecOk run_external_tools := by
  unfold run_external_tools
  refine specOk_bind (specOk_debug _) fun _ => ?_
  refine specOk_bind (specOk_printLine _) fun _ => ?_
  refine specOk_bind (specOk_run_command _) fun p1 => ?_
  refine specOk_bind (specOk_ite ?_ (specOk_warn _)) fun _ => ?_
  · exact specOk_bind (specOk_run_command _) fun r =>
      specOk_ite (specOk_success _) (specOk_fail _)
  refine specOk_bind (specOk_run_command _) fun p2 => ?_
  refine specOk_bind (specOk_ite ?_ (specOk_warn _)) fun _ => specOk_debug _
  exact specOk_bind (specOk_run_command _) fun r =>
    specOk_ite (specOk_success _) (specOk_fail _)

theorem specOk_check_build : SpecOk check_build := by
  unfold check_build
  refine specOk_bind (specOk_debug _) fun _ => ?_
  refine specOk_bind (specOk_printLine _) fun _ => ?_
  refine specOk_bind (specOk_run_command _) fun r => ?_
  refine specOk_bind (specOk_ite ?_ (specOk_fail _)) fun _ => specOk_debug _
  refine specOk_bind (specOk_success _) fun _ => ?_
  refine specOk_bind specOk_getWorld fun w => ?_
  exact specOk_ite (specOk_emit _ (by simp [countPass]) (by simp [countFail])) (specOk_pure _)

theorem specOk_generate_summary : SpecOk generate_summary := by
  unfold generate_summary
  refine specOk_bind (specOk_debug _) fun _ => ?_
  refine specOk_bind (specOk_printLine _) fun _ => ?_
  refine specOk_bind (specOk_printLine _) fun _ => ?_
  refine specOk_bind (specOk_printLine _) fun _ => ?_
  refine specOk_bind specOk_getTally fun t => ?_
  refine specOk_bind (specOk_printLine _) fun _ => ?_
  refine specOk_bind (specOk_printLine _) fun _ => ?_
  exact specOk_bind (specOk_ite (specOk_printLine _) (specOk_printLine _)) fun _ => specOk_debug _

theorem spec_check_pipeline : Spec check_pipeline := by
  unfold check_pipeline
  refine spec_bind (spec_of_specOk specOk_validate) fun _ => ?_
  refine spec_bind spec_check_tools fun _ => ?_
  refine spec_bind (spec_of_specOk specOk_check_formatting) fun _ => ?_
  refine spec_bind (spec_of_specOk specOk_run_core_checks) fun _ => ?_
  exact spec_bind (spec_of_specOk specOk_run_external_tools) fun _ =>
    spec_of_specOk specOk_check_build

theorem specOk_fast_pipeline : SpecOk fast_pipeline := by
  unfold fast_pipeline
  refine specOk_bind specOk_validate fun _ => ?_
  refine specOk_bind specOk_check_formatting fun _ => ?_
  exact specOk_bind specOk_run_core_checks fun _ => specOk_check_build

/-- Exact behaviour of `generate_summary`: it returns normally, leaves the
counters (and the command cursor) untouched, and only prints lines, among
them the summary header. -/
theorem generate_summary_run (w : World) (s : St) :
    ∃ l, generate_summary w s = (Res.ok (), { s with events := s.events ++ l }) ∧
      countPass l = 0 ∧ countFail l = 0 ∧ Event.printEv "Quality Check Summary" ∈ l := by
  by_cases h : s.failed = 0
  · refine ⟨[Event.printEv "[DEBUG] Entering generate_summary",
      Event.printEv "\n==================================",
      Event.printEv "Quality Check Summary",
      Event.printEv "==================================",
      Event.printEv ("Passed: " ++ toString s.passed),
      Event.printEv ("Failed: " ++ toString s.failed ++ "\n"),
      Event.printEv "All quality checks passed",
      Event.printEv "[DEBUG] Exiting generate_summary"], ?_, by simp [countPass],
      by simp [countFail], by simp⟩
    simp [generate_summary, M.bind, printLine, debug, M.emit, M.getTally, h]
  · refine ⟨[Event.printEv "[DEBUG] Entering generate_summary",
      Event.printEv "\n==================================",
      Event.printEv "Quality Check Summary",
      Event.printEv "==================================",
      Event.printEv ("Passed: " ++ toString s.passed),
      Event.printEv ("Failed: " ++ toString s.failed ++ "\n"),
      Event.printEv (toString s.failed ++ " quality checks failed"),
      Event.printEv "[DEBUG] Exiting generate_summary"], ?_, by simp [countPass],
      by simp [countFail], by simp⟩
    simp [generate_summary, M.bind, printLine, debug, M.emit, M.getTally, h]

/-- A component that starts with a debug line and its header print, and whose
remainder satisfies `SpecOk`, always has its header in the final event log. -/
theorem emits_header_of_bind {α : Type} (d hdr : String) (rest : M α) (hrest : SpecOk rest)
    (w : World) (s : St) :
    Event.printEv hdr ∈
      ((M.bind (debug d) fun _ => M.bind (printLine hdr) fun _ => rest) w s).2.events := by
  obtain ⟨a, s2, l, h1, he, -, -⟩ := hrest w
    { s with events := s.events ++ [Event.printEv ("[DEBUG] " ++ d), Event.printEv hdr] }
  simp [M.bind, debug, printLine, M.emit, h1, he]

theorem validate_emits_header (w : World) (s : St) :
    Event.printEv "Validating environment..." ∈ (validate_environment w s).2.events := by
  unfold validate_environment
  apply emits_header_of_bind
  refine specOk_bind (specOk_run_command _) fun goProbe => ?_
  refine specOk_ite ?_ ?_
  · exact specOk_bind (specOk_fail _) fun _ =>
      specOk_bind (specOk_debug _) fun _ => specOk_pure _
  · refine specOk_bind (specOk_debug _) fun _ => ?_
    refine specOk_bind (specOk_run_command _) fun ver => ?_
    refine specOk_ite ?_ ?_
    · exact specOk_bind (specOk_fail _) fun _ =>
        specOk_bind (specOk_debug _) fun _ => specOk_pure _
    · cases goVersionSearch ver.2 with
      | some gv =>
        refine specOk_bind (specOk_debug _) fun _ => ?_
        refine specOk_ite ?_ ?_
        · exact specOk_bind (specOk_fail _) fun _ =>
            specOk_bind (specOk_debug _) fun _ => specOk_pure _
        · refine specOk_bind (specOk_success _) fun _ => ?_
          refine specOk_bind (specOk_debug _) fun _ => ?_
          refine specOk_bind specOk_getWorld fun w2 => ?_
          refine specOk_bind (specOk_ite ?_ ?_) fun _ =>
            specOk_bind (specOk_debug _) fun _ => specOk_pure _
          · exact specOk_bind (specOk_success _) fun _ =>
              specOk_bind (specOk_debug _) fun _ =>
              specOk_ite (specOk_success _) (specOk_fail _)
          · exact specOk_bind (specOk_fail _) fun _ => specOk_debug _
      | none =>
        exact specOk_bind (specOk_fail _) fun _ =>
          specOk_bind (specOk_debug _) fun _ => specOk_pure _

theorem fmt_emits_header (w : World) (s : St) :
    Event.printEv "Checking code formatting..." ∈ (check_formatting w s).2.events := by
  unfold check_formatting
  apply emits_header_of_bind
  exact specOk_bind (specOk_run_command _) fun r =>
    specOk_bind (specOk_ite (specOk_success _) (specOk_fail _)) fun _ => specOk_debug _

theorem core_emits_header (w : World) (s : St) :
    Event.printEv "Running core quality checks..." ∈ (run_core_checks w s).2.events := by
  unfold run_core_checks
  apply emits_header_of_bind
  exact specOk_bind (specOk_core_loop _) fun _ => specOk_debug _

theorem build_emits_header (w : World) (s : St) :
    Event.printEv "Verifying build..." ∈ (check_build w s).2.events := by
  unfold check_build
  apply emits_header_of_bind
  refine specOk_bind (specOk_run_command _) fun r => ?_
  refine specOk_bind (specOk_ite ?_ (specOk_fail _)) fun _ => specOk_debug _
  refine specOk_bind (specOk_success _) fun _ => ?_
  refine specOk_bind specOk_getWorld fun w2 => ?_
  exact specOk_ite (specOk_emit _ (by simp [countPass]) (by simp [countFail])) (specOk_pure _)

/-- Unfolding of one step of `main`: after the entry debug line, `main` is
the selected branch followed by the summary and the exit decision. -/
theorem main_apply (args : List String) (w : World) (s : St) :
    main args w s =
      (M.bind (if args.headD "check" = "check" ∨ args.headD "check" = "" then check_pipeline
        else if args.headD "check" = "fast" then fast_pipeline
        else if args.headD "check" = "format" then check_formatting
        else usage_exit) fun _ =>
       M.bind generate_summary fun _ => exitDecision) w
      { s with events := s.events ++ [Event.printEv "[DEBUG] Entering main"] } := rfl

/-- Preservation of the tally invariant under an event-appending step. -/
theorem tallies_extend {s s2 : St} {l : List Event} (h : Tallies s)
    (he : s2.events = s.events ++ l) (hp : s2.passed = s.passed + countPass l)
    (hq : s2.failed = s.failed + countFail l) : Tallies s2 := by
  obtain ⟨h1, h2⟩ := h
  constructor
  · rw [hp, he, countPass_append, h1]
  · rw [hq, he, countFail_append, h2]

/-- For a branch satisfying `Spec`, the run after that branch always exits,
the exit code is 0 exactly when the failed counter is 0 at exit time, and the
tally invariant is preserved. -/
theorem run_after_branch {p : M Unit} (hp : Spec p) (w : World) (s : St) :
    ∃ c s2, (M.bind p fun _ => M.bind generate_summary fun _ => exitDecision) w s =
      (Res.exited c, s2) ∧ (c = 0 ↔ s2.failed = 0) ∧ (Tallies s → Tallies s2) := by
  obtain ⟨r, s2, l, h1, he, hpp, hq, hex⟩ := hp w s
  have hT2 : Tallies s → Tallies s2 := fun h => tallies_extend h he hpp hq
  cases r with
  | ok a =>
    obtain ⟨l2, h2, hcp, hcf, hmem⟩ := generate_summary_run w s2
    have hT3 : Tallies s → Tallies { s2 with events := s2.events ++ l2 } := fun h =>
      tallies_extend (hT2 h) rfl (by simp [hcp]) (by simp [hcf])
    by_cases hz : s2.failed = 0
    · refine ⟨0, { s2 with events := s2.events ++ l2 }, ?_, by simp [hz], hT3⟩
      simp [M.bind, h1, h2, exitDecision, hz]
    · refine ⟨1, { s2 with events := s2.events ++ l2 }, ?_, by simp [hz], hT3⟩
      simp [M.bind, h1, h2, exitDecision, hz]
  | exited cd =>
    obtain ⟨hc1, hc2⟩ := hex cd rfl
    subst hc1
    refine ⟨1, s2, by simp [M.bind, h1], ?_, hT2⟩
    constructor
    · intro hh; exact absurd hh one_ne_zero
    · intro hh; rw [hq] at hh; omega

/-- Behaviour of the final exit decision. -/
theorem exitDecision_run (w : World) (s : St) :
    exitDecision w s = (Res.exited (if s.failed = 0 then 0 else 1), s) := by
  unfold exitDecision
  split <;> simp_all

/-- Exit-code / tally behaviour of a whole run whose selected branch is `p`. -/
theorem runProgram_of_branch {p : M Unit} (hp : Spec p) (args : List String) (w : World)
    (hb : (if args.headD "check" = "check" ∨ args.headD "check" = "" then check_pipeline
      else if args.headD "check" = "fast" then fast_pipeline
      else if args.headD "check" = "format" then check_formatting
      else usage_exit) = p) :
    ((runProgram args w).1 = 0 ↔ (runProgram args w).2.failed = 0) ∧
      Tallies (runProgram args w).2 := by
  obtain ⟨c, s2, hrun, hiff, hT⟩ := run_after_branch hp w
    { initSt with events := initSt.events ++ [Event.printEv "[DEBUG] Entering main"] }
  have hmain : main args w initSt = (Res.exited c, s2) := by
    rw [main_apply, hb]; exact hrun
  have hfinal : runProgram args w = (c, s2) := by
    unfold runProgram; rw [hmain]
  rw [hfinal]
  exact ⟨hiff, hT (by constructor <;> rfl)⟩

/-- The final state of an invalid-mode run. -/
theorem runProgram_invalid (args : List String) (w : World)
    (h1 : ¬ (args.headD "check" = "check" ∨ args.headD "check" = ""))
    (h2 : ¬ args.headD "check" = "fast") (h3 : ¬ args.headD "check" = "format") :
    runProgram args w =
      (1, { idx := 0, passed := 0, failed := 0,
            events := [Event.printEv "[DEBUG] Entering main",
                       Event.printEv "Usage: quality_check.py [check|fast|format]"] }) := by
  unfold runProgram
  rw [main_apply, if_neg h1, if_neg h2, if_neg h3]
  rfl

/-- The tally invariant holds at the end of every run, whatever the mode. -/
theorem run_tallies (args : List String) (w : World) : Tallies (runProgram args w).2 := by
  by_cases h1 : args.headD "check" = "check" ∨ args.headD "check" = ""
  · exact (runProgram_of_branch spec_check_pipeline args w (if_pos h1)).2
  by_cases h2 : args.headD "check" = "fast"
  · exact (runProgram_of_branch (spec_of_specOk specOk_fast_pipeline) args w
      (by rw [if_neg h1, if_pos h2])).2
  by_cases h3 : args.headD "check" = "format"
  · exact (runProgram_of_branch (spec_of_specOk specOk_check_formatting) args w
      (by rw [if_neg h1, if_neg h2, if_pos h3])).2
  rw [runProgram_invalid args w h1 h2 h3]
  exact ⟨rfl, rfl⟩

/-! ## The claims -/

/-- C1 (counterexample): the claim "the final exit code is 0 iff the failed
count is 0" is false as stated over all runs: invoked with the invalid mode
`bogus`, the program exits 1 while the failed counter is 0. -/
theorem C1_counterexample :
    ¬ ((runProgram ["bogus"] trivialWorld).1 = 0 ↔
       (runProgram ["bogus"] trivialWorld).2.failed = 0) := by
  decide

/-- C1 (amended): for every run in a valid mode — no argument, `check`, the
empty string, `fast`, or `format` — the final exit code is 0 iff the failed
counter is 0 when the process exits.  (Invalid modes exit 1 with a zero
tally, so the equivalence is restricted to valid modes.) -/
theorem C1_amended (w : World) (rest : List String) :
    ((runProgram [] w).1 = 0 ↔ (runProgram [] w).2.failed = 0) ∧
    ((runProgram ("check" :: rest) w).1 = 0 ↔ (runProgram ("check" :: rest) w).2.failed = 0) ∧
    ((runProgram ("" :: rest) w).1 = 0 ↔ (runProgram ("" :: rest) w).2.failed = 0) ∧
    ((runProgram ("fast" :: rest) w).1 = 0 ↔ (runProgram ("fast" :: rest) w).2.failed = 0) ∧
    ((runProgram ("format" :: rest) w).1 = 0 ↔ (runProgram ("format" :: rest) w).2.failed = 0) := by
  refine ⟨?_, ?_, ?_, ?_, ?_⟩
  · exact (runProgram_of_branch spec_check_pipeline [] w (by simp)).1
  · exact (runProgram_of_branch spec_check_pipeline ("check" :: rest) w (by simp)).1
  · exact (runProgram_of_branch spec_check_pipeline ("" :: rest) w (by simp)).1
  · exact (runProgram_of_branch (spec_of_specOk specOk_fast_pipeline) ("fast" :: rest) w
      (by simp)).1
  · exact (runProgram_of_branch (spec_of_specOk specOk_check_formatting) ("format" :: rest) w
      (by simp)).1

/-- C2: at the end of every run the Aggregate Tally equals the number of Pass
and Fail results emitted, and each emitting primitive changes the state by
exactly its own event: `warn` appends a Warn event and leaves both counters
unchanged, while `success`/`fail` append their event and bump exactly their
own counter — so the invariant holds at every point of every run. -/
theorem C2_tally_invariant :
    (∀ (args : List String) (w : World),
      (runProgram args w).2.passed = countPass (runProgram args w).2.events ∧
      (runProgram args w).2.failed = countFail (runProgram args w).2.events) ∧
    (∀ (m : String) (w : World) (s : St),
      warn m w s = (Res.ok (), { s with events := s.events ++ [Event.warnEv m] })) ∧
    (∀ (m : String) (w : World) (s : St),
      success m w s =
        (Res.ok (), { s with passed := s.passed + 1, events := s.events ++ [Event.passEv m] })) ∧
    (∀ (m : String) (w : World) (s : St),
      fail m w s =
        (Res.ok (), { s with failed := s.failed + 1, events := s.events ++ [Event.failEv m] })) :=
  ⟨fun args w => run_tallies args w, fun _ _ _ => rfl, fun _ _ _ => rfl, fun _ _ _ => rfl⟩

/-- C3 (counterexample): the claim "in every valid mode no step is skipped
and the run always reaches the summary" is false for mode `check` (here the
default, no-argument invocation): when a tool install's `go env GOPATH` query
fails, the run exits at once — no formatting, core, external-tool, or build
step runs and no summary is printed. -/
theorem C3_counterexample :
    (runProgram [] goAbsentWorld).1 = 1 ∧
    Event.printEv "Quality Check Summary" ∉ (runProgram [] goAbsentWorld).2.events ∧
    Event.printEv "Checking code formatting..." ∉ (runProgram [] goAbsentWorld).2.events ∧
    Event.printEv "Running core quality checks..." ∉ (runProgram [] goAbsentWorld).2.events ∧
    Event.printEv "Running external tools (conditional)..." ∉ (runProgram [] goAbsentWorld).2.events ∧
    Event.printEv "Verifying build..." ∉ (runProgram [] goAbsentWorld).2.events := by
  decide

/-- C3 (amended): in modes `fast` and `format` no step is skipped and the run
always reaches the summary: every Check Step of the selected pipeline prints
its header and the summary header is printed, whatever results the commands
produce.  In mode `check` the run can abort early (see the counterexample). -/
theorem C3_amended (w : World) :
    (Event.printEv "Validating environment..." ∈ (runProgram ["fast"] w).2.events ∧
     Event.printEv "Checking code formatting..." ∈ (runProgram ["fast"] w).2.events ∧
     Event.printEv "Running core quality checks..." ∈ (runProgram ["fast"] w).2.events ∧
     Event.printEv "Verifying build..." ∈ (runProgram ["fast"] w).2.events ∧
     Event.printEv "Quality Check Summary" ∈ (runProgram ["fast"] w).2.events) ∧
    (Event.printEv "Checking code formatting..." ∈ (runProgram ["format"] w).2.events ∧
     Event.printEv "Quality Check Summary" ∈ (runProgram ["format"] w).2.events) := by
  constructor
  · obtain ⟨b1, s2, l1, hval, he1, -, -⟩ := specOk_validate w
      { initSt with events := initSt.events ++ [Event.printEv "[DEBUG] Entering main"] }
    have hv := validate_emits_header w
      { initSt with events := initSt.events ++ [Event.printEv "[DEBUG] Entering main"] }
    rw [hval] at hv
    obtain ⟨b2, s3, l2, hfmt, he2, -, -⟩ := specOk_check_formatting w s2
    have hf := fmt_emits_header w s2
    rw [hfmt] at hf
    obtain ⟨b3, s4, l3, hcore, he3, -, -⟩ := specOk_run_core_checks w s3
    have hc := core_emits_header w s3
    rw [hcore] at hc
    obtain ⟨b4, s5, l4, hbuild, he4, -, -⟩ := specOk_check_build w s4
    have hb := build_emits_header w s4
    rw [hbuild] at hb
    obtain ⟨l6, hsum, -, -, hmem⟩ := generate_summary_run w s5
    have hrun : runProgram ["fast"] w =
        ((if s5.failed = 0 then 0 else 1), { s5 with events := s5.events ++ l6 }) := by
      unfold runProgram
      rw [main_apply, (by simp :
        (if ("fast" :: ([] : List String)).headD "check" = "check" ∨
            ("fast" :: ([] : List String)).headD "check" = "" then check_pipeline
         else if ("fast" :: ([] : List String)).headD "check" = "fast" then fast_pipeline
         else if ("fast" :: ([] : List String)).headD "check" = "format" then check_formatting
         else usage_exit) = fast_pipeline)]
      unfold fast_pipeline
      simp only [M.bind, hval, hfmt, hcore, hbuild, hsum, exitDecision_run]
    rw [hrun]
    refine ⟨?_, ?_, ?_, ?_, ?_⟩
    · rw [show ({ s5 with events := s5.events ++ l6 } : St).events = s5.events ++ l6 from rfl,
        he4, he3, he2]
      simp [hv]
    · rw [show ({ s5 with events := s5.events ++ l6 } : St).events = s5.events ++ l6 from rfl,
        he4, he3]
      simp [hf]
    · rw [show ({ s5 with events := s5.events ++ l6 } : St).events = s5.events ++ l6 from rfl,
        he4]
      simp [hc]
    · rw [show ({ s5 with events := s5.events ++ l6 } : St).events = s5.events ++ l6 from rfl]
      simp [hb]
    · rw [show ({ s5 with events := s5.events ++ l6 } : St).events = s5.events ++ l6 from rfl]
      simp [hmem]
  · obtain ⟨b2, s2, l2, hfmt, he2, -, -⟩ := specOk_check_formatting w
      { initSt with events := initSt.events ++ [Event.printEv "[DEBUG] Entering main"] }
    have hf := fmt_emits_header w
      { initSt with events := initSt.events ++ [Event.printEv "[DEBUG] Entering main"] }
    rw [hfmt] at hf
    obtain ⟨l6, hsum, -, -, hmem⟩ := generate_summary_run w s2
    have hrun : runProgram ["format"] w =
        ((if s2.failed = 0 then 0 else 1), { s2 with events := s2.events ++ l6 }) := by
      unfold runProgram
      rw [main_apply, (by simp :
        (if ("format" :: ([] : List String)).headD "check" = "check" ∨
            ("format" :: ([] : List String)).headD "check" = "" then check_pipeline
         else if ("format" :: ([] : List String)).headD "check" = "fast" then fast_pipeline
         else if ("format" :: ([] : List String)).headD "check" = "format" then check_formatting
         else usage_exit) = check_formatting)]
      simp only [M.bind, hfmt, hsum, exitDecision_run]
    rw [hrun]
    constructor
    · rw [show ({ s2 with events := s2.events ++ l6 } : St).events = s2.events ++ l6 from rfl]
      simp [hf]
    · rw [show ({ s2 with events := s2.events ++ l6 } : St).events = s2.events ++ l6 from rfl]
      simp [hmem]

/-- C4 (counterexample): the claim that the Environment Validator
short-circuits only when the toolchain is absent or the version is
unretrievable/unparseable is false: with Go present and reporting version
`go1.1` (below the requirement), the validator emits Fail and returns the
abort signal `false` without ever reaching the manifest-existence or
module-name checks, even though `go.mod` exists. -/
theorem C4_counterexample :
    (validate_environment goVer11World initSt).1 = Res.ok false ∧
    Event.failEv "Go version 1.1 below requirement (>= 1.24)" ∈
      (validate_environment goVer11World initSt).2.events ∧
    goVer11World.goModExists = true ∧
    Event.passEv "go.mod exists" ∉ (validate_environment goVer11World initSt).2.events ∧
    Event.failEv "go.mod not found" ∉ (validate_environment goVer11World initSt).2.events := by
  decide

/-- C4 (amended): the Environment Validator short-circuits on three
conditions, not two: toolchain absent, version unretrievable/unparseable, AND
version comparing below the requirement.  When the extracted version compares
below `1.24`, it emits Fail and returns the abort signal immediately; the
manifest-existence and module-name checks are not reached. -/
theorem C4_amended (w : World) (s : St) (v : String)
    (h1 : (runResult (w.exec s.idx)).1 = true)
    (h2 : (runResult (w.exec (s.idx + 1))).1 = true)
    (h3 : goVersionSearch (runResult (w.exec (s.idx + 1))).2 = some v)
    (h4 : pyStrLt v.data GO_VERSION_REQUIRED.data = true) :
    validate_environment w s =
      (Res.ok false,
       { s with idx := s.idx + 1 + 1,
                failed := s.failed + 1,
                events := s.events ++
                  [Event.printEv "[DEBUG] Entering validate_environment",
                   Event.printEv "Validating environment...",
                   Event.cmdEv "command -v go",
                   Event.printEv "[DEBUG] Go command found",
                   Event.cmdEv "go version",
                   Event.printEv ("[DEBUG] " ++ ("Go version extracted: " ++ v)),
                   Event.failEv ("Go version " ++ v ++ " below requirement (>= " ++ GO_VERSION_REQUIRED ++ ")"),
                   Event.printEv "[DEBUG] Go version too low, exiting validate_environment"] }) := by
  unfold validate_environment
  simp [M.bind, run_command, debug, printLine, M.emit, M.pure, success, fail, warn,
    M.getWorld, h1, h2, h3, h4]

/-- Witness for C4 (amended) at a concrete environment reporting `go1.1`. -/
theorem C4_amended_witness :
    validate_environment goVer11World initSt =
      (Res.ok false,
       { initSt with idx := initSt.idx + 1 + 1,
                     failed := initSt.failed + 1,
                     events := initSt.events ++
                       [Event.printEv "[DEBUG] Entering validate_environment",
                        Event.printEv "Validating environment...",
                        Event.cmdEv "command -v go",
                        Event.printEv "[DEBUG] Go command found",
                        Event.cmdEv "go version",
                        Event.printEv ("[DEBUG] " ++ ("Go version extracted: " ++ "1.1")),
                        Event.failEv ("Go version " ++ "1.1" ++ " below requirement (>= " ++ GO_VERSION_REQUIRED ++ ")"),
                        Event.printEv "[DEBUG] Go version too low, exiting validate_environment"] }) :=
  C4_amended goVer11World initSt "1.1" (by decide) (by decide) (by decide) (by decide)

/-- C5: the version comparison is lexicographic string ordering, not numeric:
`"1.9"` is not below `"1.24"` under the script's comparison although it is
numerically smaller, so an environment reporting `go1.9` gets a Pass
("meets requirement") and the validator returns the continue signal. -/
theorem C5_lexicographic_version :
    pyStrLt "1.9".data GO_VERSION_REQUIRED.data = false ∧
    specNumericLt "1.9" GO_VERSION_REQUIRED = true ∧
    (validate_environment goVer19World initSt).1 = Res.ok true ∧
    Event.passEv "Go version 1.9 meets requirement (>= 1.24)" ∈
      (validate_environment goVer19World initSt).2.events := by
  decide

/-- C6: the Process Runner never raises to its caller: a zero exit status
yields `(True, stdout stripped)`, a nonzero exit status yields
`(False, stderr stripped)`, a command that could not be launched yields a
failed outcome carrying the diagnostic text, and `run_command` always returns
normally (never exits), only logging the invocation. -/
theorem C6_run_command_total (rc : Int) (out err d c : String) (w : World) (s : St) :
    runResult (ExecResult.normal 0 out err) = (true, pyStrip out) ∧
    (rc ≠ 0 → runResult (ExecResult.normal rc out err) = (false, pyStrip err)) ∧
    runResult (ExecResult.launchFailure d) = (false, d) ∧
    run_command c w s =
      (Res.ok (runResult (w.exec s.idx)),
       { s with idx := s.idx + 1, events := s.events ++ [Event.cmdEv c] }) := by
  refine ⟨by simp [runResult], fun h => ?_, rfl, rfl⟩
  simp [runResult, h]

/-- Witness for C6 at exit status 1 and at a spawn failure. -/
theorem C6_run_command_total_witness :
    runResult (ExecResult.normal 1 "o" "e") = (false, pyStrip "e") ∧
    runResult (ExecResult.launchFailure "boom") = (false, "boom") :=
  ⟨(C6_run_command_total 1 "o" "e" "boom" "x" trivialWorld initSt).2.1 (by decide),
   (C6_run_command_total 1 "o" "e" "boom" "x" trivialWorld initSt).2.2.1⟩

/-- C8: in mode `format`, exactly one Check Result (Pass or Fail) is emitted
in the whole run, and the only command ever invoked is the formatter command
— no build, test, or vet command runs. -/
theorem C8_format_mode (w : World) :
    countPass (runProgram ["format"] w).2.events +
      countFail (runProgram ["format"] w).2.events = 1 ∧
    cmdsOf (runProgram ["format"] w).2.events = [gofmt_command] := by
  unfold runProgram
  rw [main_apply, (by simp :
    (if ("format" :: ([] : List String)).headD "check" = "check" ∨
        ("format" :: ([] : List String)).headD "check" = "" then check_pipeline
     else if ("format" :: ([] : List String)).headD "check" = "fast" then fast_pipeline
     else if ("format" :: ([] : List String)).headD "check" = "format" then check_formatting
     else usage_exit) = check_formatting)]
  by_cases h : (runResult (w.exec 0)).2 = ""
  · simp [check_formatting, M.bind, run_command, debug, printLine, M.emit, success, fail,
      generate_summary, M.getTally, exitDecision, initSt, h, countPass, countFail, cmdsOf]
  · simp [check_formatting, M.bind, run_command, debug, printLine, M.emit, success, fail,
      generate_summary, M.getTally, exitDecision, initSt, h, countPass, countFail, cmdsOf]

/-- C10: the Formatting Checker's verdict depends only on whether the
command's stripped stdout is empty: the command line ends in `|| true`, so
the shell reports exit status 0 even when the formatter cannot be launched,
and with exit status 0 and empty stripped stdout the checker emits Pass;
nonempty stripped stdout yields Fail carrying the file list. -/
theorem C10_formatting_verdict (w : World) (s : St) (out err : String)
    (hw : w.exec s.idx = ExecResult.normal 0 out err) :
    gofmt_command = "gofmt -l . | grep -v vendor/ || true" ∧
    (pyStrip out = "" →
      check_formatting w s =
        (Res.ok (), { s with idx := s.idx + 1,
                             passed := s.passed + 1,
                             events := s.events ++
                               [Event.printEv "[DEBUG] Entering check_formatting",
                                Event.printEv "Checking code formatting...",
                                Event.cmdEv gofmt_command,
                                Event.passEv "All Go files formatted correctly",
                                Event.printEv "[DEBUG] Exiting check_formatting"] })) ∧
    (pyStrip out ≠ "" →
      check_formatting w s =
        (Res.ok (), { s with idx := s.idx + 1,
                             failed := s.failed + 1,
                             events := s.events ++
                               [Event.printEv "[DEBUG] Entering check_formatting",
                                Event.printEv "Checking code formatting...",
                                Event.cmdEv gofmt_command,
                                Event.failEv ("Unformatted files found: " ++ pyStrip out),
                                Event.printEv "[DEBUG] Exiting check_formatting"] })) := by
  refine ⟨rfl, fun he => ?_, fun hne => ?_⟩
  · simp [check_formatting, M.bind, run_command, debug, printLine, M.emit, success, fail,
      runResult, hw, he]
  · simp [check_formatting, M.bind, run_command, debug, printLine, M.emit, success, fail,
      runResult, hw, hne]

/-- Witness for C10: empty formatter output yields the Pass event. -/
theorem C10_formatting_verdict_witness :
    check_formatting trivialWorld initSt =
      (Res.ok (), { initSt with idx := initSt.idx + 1,
                                passed := initSt.passed + 1,
                                events := initSt.events ++
                                  [Event.printEv "[DEBUG] Entering check_formatting",
                                   Event.printEv "Checking code formatting...",
                                   Event.cmdEv gofmt_command,
                                   Event.passEv "All Go files formatted correctly",
                                   Event.printEv "[DEBUG] Exiting check_formatting"] }) :=
  (C10_formatting_verdict trivialWorld initSt "" "" rfl).2.1 (by decide)

end QC
